import Mathlib

/-!
Shallow embedding of the libmaple I2C peripheral support header
(`libmaple/include/libmaple/i2c.h`) and the Wirish SPI auxiliary
functions (`wirish/comm/HardwareSPI.cpp`), with theorems checking the
natural-language specification against the code.

Machine integers (`uint32`, `uint16`, `uint8`) are modelled as `Nat`,
with bitwise complement made explicit as XOR against the 32-bit
all-ones mask, matching C's `~` on `uint32` operands.
-/

/-- All-ones mask of a 32-bit register, the value of `~0u` in C. -/
def UINT32_MAX : Nat := 2 ^ 32 - 1

/-- Bitwise complement on a 32-bit quantity: C's `~x` for `uint32 x`. -/
def compl32 (x : Nat) : Nat := UINT32_MAX ^^^ x

/- Control register 1 bit definitions (i2c.h lines 120-127). -/

def I2C_CR1_SWRST : Nat := 1 <<< 15
def I2C_CR1_ALERT : Nat := 1 <<< 13
def I2C_CR1_PEC : Nat := 1 <<< 12
def I2C_CR1_POS : Nat := 1 <<< 11
def I2C_CR1_ACK : Nat := 1 <<< 10
def I2C_CR1_STOP : Nat := 1 <<< 9
def I2C_CR1_START : Nat := 1 <<< 8
def I2C_CR1_PE : Nat := 1 <<< 0

/- Control register 2 bit definitions (i2c.h lines 131-136). -/

def I2C_CR2_LAST : Nat := 1 <<< 12
def I2C_CR2_DMAEN : Nat := 1 <<< 11
def I2C_CR2_ITBUFEN : Nat := 1 <<< 10
def I2C_CR2_ITEVTEN : Nat := 1 <<< 9
def I2C_CR2_ITERREN : Nat := 1 <<< 8
def I2C_CR2_FREQ : Nat := 0xFFF

/- Clock control register bit definitions (i2c.h lines 140-142). -/

def I2C_CCR_FS : Nat := 1 <<< 15
def I2C_CCR_DUTY : Nat := 1 <<< 14
def I2C_CCR_CCR : Nat := 0xFFF

/- Status register 1 bit definitions (i2c.h lines 146-159). -/

def I2C_SR1_SB : Nat := 1 <<< 0
def I2C_SR1_ADDR : Nat := 1 <<< 1
def I2C_SR1_BTF : Nat := 1 <<< 2
def I2C_SR1_ADD10 : Nat := 1 <<< 3
def I2C_SR1_STOPF : Nat := 1 <<< 4
def I2C_SR1_RXNE : Nat := 1 <<< 6
def I2C_SR1_TXE : Nat := 1 <<< 7
def I2C_SR1_BERR : Nat := 1 <<< 8
def I2C_SR1_ARLO : Nat := 1 <<< 9
def I2C_SR1_AF : Nat := 1 <<< 10
def I2C_SR1_OVR : Nat := 1 <<< 11
def I2C_SR1_PECERR : Nat := 1 <<< 12
def I2C_SR1_TIMEOUT : Nat := 1 <<< 14
def I2C_SR1_SMBALERT : Nat := 1 <<< 15

/- Status register 2 bit definitions (i2c.h lines 163-170). -/

def I2C_SR2_MSL : Nat := 1 <<< 0
def I2C_SR2_BUSY : Nat := 1 <<< 1
def I2C_SR2_TRA : Nat := 1 <<< 2
def I2C_SR2_GENCALL : Nat := 1 <<< 4

/- I2C message flags (i2c.h lines 71-72). -/

def I2C_MSG_READ : Nat := 0x1
def I2C_MSG_10BIT_ADDR : Nat := 0x2

/- Error status codes returned by i2c_master_xfer (i2c.h lines 185-186). -/

def I2C_ERROR_PROTOCOL : Int := -1
def I2C_ERROR_TIMEOUT : Int := -2

/- Interrupt class masks (i2c.h lines 308-310). -/

def I2C_IRQ_ERROR : Nat := I2C_CR2_ITERREN
def I2C_IRQ_EVENT : Nat := I2C_CR2_ITEVTEN
def I2C_IRQ_BUFFER : Nat := I2C_CR2_ITBUFEN

/-- I2C device states (enum `i2c_state`, i2c.h lines 58-64). -/
inductive i2c_state where
  | I2C_STATE_DISABLED
  | I2C_STATE_IDLE
  | I2C_STATE_XFER_DONE
  | I2C_STATE_BUSY
  | I2C_STATE_ERROR
deriving DecidableEq, Repr

/-- I2C register map (struct `i2c_reg_map`, i2c.h lines 45-55); each
field is one 32-bit memory-mapped register. -/
structure i2c_reg_map where
  CR1 : Nat
  CR2 : Nat
  OAR1 : Nat
  OAR2 : Nat
  DR : Nat
  SR1 : Nat
  SR2 : Nat
  CCR : Nat
  TRISE : Nat
deriving DecidableEq, Repr

/-- I2C message (struct `i2c_msg`, i2c.h lines 69-78); the data buffer
is modelled as the list of bytes it holds. -/
structure i2c_msg where
  addr : Nat
  flags : Nat
  length : Nat
  xferred : Nat
  data : List Nat
deriving DecidableEq, Repr

/-- I2C device (struct `i2c_dev`, i2c.h lines 83-96).  The GPIO port,
pins, clock id and NVIC lines are opaque identifiers; run state is
`state`, `error_flags`, `timestamp`, `msgs_left`. -/
structure i2c_dev where
  regs : i2c_reg_map
  error_flags : Nat
  timestamp : Nat
  gpio_port : Nat
  msgs_left : Nat
  sda_pin : Nat
  scl_pin : Nat
  clk_id : Nat
  ev_nvic_line : Nat
  er_nvic_line : Nat
  state : i2c_state
deriving DecidableEq, Repr

/-- `i2c_disable` (i2c.h lines 199-202): clears `I2C_CR1_PE` in CR1 and
sets the device state to `I2C_STATE_DISABLED`. -/
def i2c_disable (dev : i2c_dev) : i2c_dev :=
  { dev with
    regs := { dev.regs with CR1 := dev.regs.CR1 &&& compl32 I2C_CR1_PE }
    state := .I2C_STATE_DISABLED }

/-- `i2c_peripheral_enable` (i2c.h lines 208-210). -/
def i2c_peripheral_enable (dev : i2c_dev) : i2c_dev :=
  { dev with regs := { dev.regs with CR1 := dev.regs.CR1 ||| I2C_CR1_PE } }

/-- `i2c_peripheral_disable` (i2c.h lines 216-218). -/
def i2c_peripheral_disable (dev : i2c_dev) : i2c_dev :=
  { dev with
    regs := { dev.regs with CR1 := dev.regs.CR1 &&& compl32 I2C_CR1_PE } }

/-- `i2c_write` (i2c.h lines 225-227): fills the data register. -/
def i2c_write (dev : i2c_dev) (byte : Nat) : i2c_dev :=
  { dev with regs := { dev.regs with DR := byte } }

/-- `i2c_set_input_clk` (i2c.h lines 234-239), embedded exactly as
written: the local `cr2` is computed as `(CR2 & ~I2C_CR2_FREQ) | freq`
but the store on line 238 writes `freq`, not `cr2`. -/
def i2c_set_input_clk (dev : i2c_dev) (freq : Nat) : i2c_dev :=
  let cr2 := dev.regs.CR2
  let cr2 := cr2 &&& compl32 I2C_CR2_FREQ
  let _cr2 := cr2 ||| freq
  { dev with regs := { dev.regs with CR2 := freq } }

/-- `i2c_set_clk_control` (i2c.h lines 247-252): CCR becomes
`(CCR & ~I2C_CCR_CCR) | val`. -/
def i2c_set_clk_control (dev : i2c_dev) (val : Nat) : i2c_dev :=
  let ccr := dev.regs.CCR
  let ccr := ccr &&& compl32 I2C_CCR_CCR
  let ccr := ccr ||| val
  { dev with regs := { dev.regs with CCR := ccr } }

/-- `i2c_set_trise` (i2c.h lines 261-263). -/
def i2c_set_trise (dev : i2c_dev) (trise : Nat) : i2c_dev :=
  { dev with regs := { dev.regs with TRISE := trise } }

/-- `i2c_enable_irq` (i2c.h lines 311-313): `CR2 |= irqs`. -/
def i2c_enable_irq (dev : i2c_dev) (irqs : Nat) : i2c_dev :=
  { dev with regs := { dev.regs with CR2 := dev.regs.CR2 ||| irqs } }

/-- `i2c_disable_irq` (i2c.h lines 323-325): `CR2 &= ~irqs`. -/
def i2c_disable_irq (dev : i2c_dev) (irqs : Nat) : i2c_dev :=
  { dev with
    regs := { dev.regs with CR2 := dev.regs.CR2 &&& compl32 irqs } }

/-- `i2c_enable_ack` (i2c.h lines 332-334). -/
def i2c_enable_ack (dev : i2c_dev) : i2c_dev :=
  { dev with regs := { dev.regs with CR1 := dev.regs.CR1 ||| I2C_CR1_ACK } }

/-- `i2c_disable_ack` (i2c.h lines 340-342). -/
def i2c_disable_ack (dev : i2c_dev) : i2c_dev :=
  { dev with
    regs := { dev.regs with CR1 := dev.regs.CR1 &&& compl32 I2C_CR1_ACK } }

/-- Mask of the CR1 bits both condition-generation routines busy-wait
on: `I2C_CR1_START | I2C_CR1_STOP | I2C_CR1_PEC` (i2c.h lines 272-274
and 286-294). -/
def I2C_CR1_COND_PENDING : Nat := I2C_CR1_START ||| I2C_CR1_STOP ||| I2C_CR1_PEC

/-- Busy-wait loop shared by `i2c_start_condition` and
`i2c_stop_condition` (`while ((cr1 = dev->regs->CR1) & (...)) ;`).
`hw k` is the CR1 value observed by the k-th read of the register; the
hardware may change CR1 between reads, so successive observations
differ.  `fuel` bounds the number of reads so the embedding is total;
the loop exits at the first observation `k` at which no START, STOP or
PEC bit is pending and returns that index, or `none` if the fuel runs
out first. -/
def i2c_wait_cond_clear (hw : Nat → Nat) (k : Nat) : Nat → Option Nat
  | 0 => none
  | fuel + 1 =>
    if hw k &&& I2C_CR1_COND_PENDING = 0 then some k
    else i2c_wait_cond_clear hw (k + 1) fuel

/-- `i2c_start_condition` (i2c.h lines 270-278): busy-waits until no
START/STOP/PEC bit is pending in CR1, then executes
`dev->regs->CR1 |= I2C_CR1_START`.  Returns the CR1 value left in the
register by that store (the read-modify-write reads the last observed
value `hw k`), or `none` if the wait never saw the bits clear within
`fuel` reads. -/
def i2c_start_condition (hw : Nat → Nat) (fuel : Nat) : Option Nat :=
  match i2c_wait_cond_clear hw 0 fuel with
  | none => none
  | some k => some (hw k ||| I2C_CR1_START)

/-- `i2c_stop_condition` (i2c.h lines 284-298): busy-waits until no
START/STOP/PEC bit is pending, executes `dev->regs->CR1 |= I2C_CR1_STOP`,
then busy-waits again until none of those bits is pending.  Reads of
CR1 after the STOP store observe `hw` from index `k + 1` on, the
hardware having absorbed the store and then evolving on its own (it
eventually clears the condition bits).  Returns the CR1 value observed
by the final read, or `none` on fuel exhaustion. -/
def i2c_stop_condition (hw : Nat → Nat) (fuel : Nat) : Option Nat :=
  match i2c_wait_cond_clear hw 0 fuel with
  | none => none
  | some k =>
    match i2c_wait_cond_clear hw (k + 1) fuel with
    | none => none
    | some j => some (hw j)

/-- Transitions of the device `state` field that the specification's
invariant lists as the only permitted ones: Disabled→Idle, Idle→Busy,
Busy→XferDone, Busy→Error, XferDone→Idle, Error→Idle. -/
def allowed_transition : i2c_state → i2c_state → Bool
  | .I2C_STATE_DISABLED, .I2C_STATE_IDLE => true
  | .I2C_STATE_IDLE, .I2C_STATE_BUSY => true
  | .I2C_STATE_BUSY, .I2C_STATE_XFER_DONE => true
  | .I2C_STATE_BUSY, .I2C_STATE_ERROR => true
  | .I2C_STATE_XFER_DONE, .I2C_STATE_IDLE => true
  | .I2C_STATE_ERROR, .I2C_STATE_IDLE => true
  | _, _ => false

/-- The transitions of the invariant list extended with the transitions
to Disabled that `i2c_disable` actually performs from every state. -/
def amended_allowed (a b : i2c_state) : Bool :=
  allowed_transition a b || (b == .I2C_STATE_DISABLED)

/-- The public operations of the driver interface: `i2c_init`,
`i2c_master_enable`, `i2c_master_xfer` (with the outcome of the
transaction), `i2c_bus_reset` and `i2c_disable`. -/
inductive i2c_op where
  | op_init
  | op_master_enable
  | op_master_xfer (ok : Bool)
  | op_bus_reset
  | op_disable
deriving DecidableEq, Repr

/-- A state change, recorded only when the written value differs from
the current one: rewriting the same value is not a transition. -/
def state_step (a b : i2c_state) : List (i2c_state × i2c_state) :=
  if a = b then [] else [(a, b)]

/-- Modelled from the spec: the `state`-field trajectory of each public
operation (the bodies of `i2c_init`, `i2c_master_enable`,
`i2c_master_xfer` and `i2c_bus_reset` live in `i2c.c`, which is not in
the sources; only `i2c_disable` is defined in `i2c.h`).  Per the spec:
`init` resets the peripheral and sets state to Idle; `master_enable`
configures and enables, landing in Idle; `master_xfer` first returns a
terminal XferDone/Error state to Idle, goes Idle→Busy, then
Busy→XferDone on completion or Busy→Error on fault/timeout (it is not
defined on a Disabled or Busy device, modelled as the empty
trajectory); `bus_reset` reinitializes into Idle; `i2c_disable`,
following its definition in i2c.h lines 199-202, writes
`I2C_STATE_DISABLED` unconditionally. -/
def i2c_op_trajectory : i2c_op → i2c_state → List (i2c_state × i2c_state)
  | .op_init, s => state_step s .I2C_STATE_IDLE
  | .op_master_enable, s => state_step s .I2C_STATE_IDLE
  | .op_master_xfer ok, s =>
    match s with
    | .I2C_STATE_DISABLED => []
    | .I2C_STATE_BUSY => []
    | s =>
      state_step s .I2C_STATE_IDLE ++
      [(.I2C_STATE_IDLE, .I2C_STATE_BUSY),
       (.I2C_STATE_BUSY, if ok then .I2C_STATE_XFER_DONE else .I2C_STATE_ERROR)]
  | .op_bus_reset, s => state_step s .I2C_STATE_IDLE
  | .op_disable, s => state_step s .I2C_STATE_DISABLED

/-- Every state change an operation performs lies in the amended
transition list. -/
def trajectory_ok (op : i2c_op) (s : i2c_state) : Bool :=
  (i2c_op_trajectory op s).all (fun p => amended_allowed p.1 p.2)

/-- Outcomes of one `i2c_master_xfer` call: all messages completed, a
protocol fault (error-class status bit), or watchdog expiry. -/
inductive xfer_outcome where
  | success
  | protocol_fault
  | timeout_expiry
deriving DecidableEq, Repr

/-- Modelled from the spec: the status code `i2c_master_xfer` returns
for each outcome (its body lives in `i2c.c`, not in the sources; the
status constants are i2c.h lines 185-186).  A total function: every
outcome is reported through the return value, never by aborting. -/
def i2c_xfer_status : xfer_outcome → Int
  | .success => 0
  | .protocol_fault => I2C_ERROR_PROTOCOL
  | .timeout_expiry => I2C_ERROR_TIMEOUT

/-- Events observable on the I2C bus wires during a transaction. -/
inductive bus_event where
  | ev_start
  | ev_rep_start
  | ev_addr (addr : Nat) (read : Bool)
  | ev_data
  | ev_stop
deriving DecidableEq, Repr

/-- Modelled from the spec: bus events of one message on a fault-free
bus — START for the first message of the queue, repeated START for
every later one, then the address phase, then one data event per byte
(`i2c_master_xfer` lives in `i2c.c`, not in the sources). -/
def i2c_msg_trace (first : Bool) (m : i2c_msg) : List bus_event :=
  (if first then bus_event.ev_start else bus_event.ev_rep_start) ::
    bus_event.ev_addr m.addr (m.flags &&& I2C_MSG_READ != 0) ::
      List.replicate m.length bus_event.ev_data

/-- Modelled from the spec: the bus trace of a whole fault-free
`i2c_master_xfer` call — every message in submission order, a single
STOP after the last byte of the last message, and no STOP between
chained messages. -/
def i2c_xfer_trace (msgs : List i2c_msg) : List bus_event :=
  match msgs with
  | [] => []
  | m :: rest =>
    i2c_msg_trace true m ++
      (rest.map (i2c_msg_trace false)).flatten ++ [bus_event.ev_stop]

/- SPI auxiliary functions (wirish/comm/HardwareSPI.cpp). -/

/-- Number of SPIFrequency values; matches the 8-entry initializer of
`baud_rates` (HardwareSPI.cpp lines 281-290). -/
def MAX_SPI_FREQS : Nat := 8

/-- Modelled from the spec: `SPI_140_625KHZ` is the slowest, hence
largest, SPIFrequency enumerator (the enum is declared in
HardwareSPI.h, which is not in the sources); APB2 peripherals are too
fast for it per the comment at HardwareSPI.cpp line 298. -/
def SPI_140_625KHZ : Nat := 7

/-- The `baud_rates` table (HardwareSPI.cpp lines 281-290), entry i
holding the PCLK divisor `SPI_BAUD_PCLK_DIV_<2^(i+1)>`, modelled by
the divisor magnitude. -/
def baud_rates : List Nat := [2, 4, 8, 16, 32, 64, 128, 256]

/-- `determine_baud_rate` (HardwareSPI.cpp lines 296-305).  `isAPB2`
is the value of `rcc_dev_clk(dev->clk_id) == RCC_APB2`.  The
APB2/`SPI_140_625KHZ` case asserts and returns the sentinel
`(spi_baud_rate)~0`, modelled by `UINT32_MAX`, without touching the
table; every table access goes through `List.get?`, so an
out-of-bounds index would surface as `none`. -/
def determine_baud_rate (isAPB2 : Bool) (freq : Nat) : Option Nat :=
  if isAPB2 && freq == SPI_140_625KHZ then
    some UINT32_MAX
  else if isAPB2 then
    baud_rates.get? (freq + 1)
  else
    baud_rates.get? freq

/- Concrete fixtures used by the closed theorems below. -/

/-- Builds an `i2c_dev` with the given register contents and state;
identifier-like fields are zeroed. -/
def mk_i2c_dev (cr1 cr2 dr sr1 sr2 ccr : Nat) (st : i2c_state) : i2c_dev :=
  { regs := { CR1 := cr1, CR2 := cr2, OAR1 := 0, OAR2 := 0, DR := dr,
              SR1 := sr1, SR2 := sr2, CCR := ccr, TRISE := 0 }
    error_flags := 0
    timestamp := 0
    gpio_port := 0
    msgs_left := 0
    sda_pin := 0
    scl_pin := 0
    clk_id := 0
    ev_nvic_line := 0
    er_nvic_line := 0
    state := st }

/-- A device caught mid-transfer: peripheral enabled, an unread byte
in DR (`I2C_SR1_RXNE` set), bus busy (`I2C_SR2_BUSY` set). -/
def dev_busy_rx : i2c_dev :=
  mk_i2c_dev I2C_CR1_PE 0 0xAB I2C_SR1_RXNE I2C_SR2_BUSY 0 .I2C_STATE_IDLE

/-- A device with all three interrupt classes enabled in CR2 and the
DMA-last-transfer bit (`I2C_CR2_LAST`, bit 12, the lowest CR2 bit
outside the 0xFFF FREQ mask) set. -/
def dev_irqs_on : i2c_dev :=
  mk_i2c_dev 0
    (I2C_CR2_LAST ||| I2C_CR2_ITERREN ||| I2C_CR2_ITEVTEN ||| I2C_CR2_ITBUFEN)
    0 0 0 0 .I2C_STATE_IDLE

/-- An enabled idle device. -/
def dev_idle : i2c_dev :=
  mk_i2c_dev I2C_CR1_PE 0 0 0 0 0 .I2C_STATE_IDLE

/-- A device whose CR2 carries a non-interrupt bit (`I2C_CR2_DMAEN`). -/
def dev_dma_on : i2c_dev :=
  mk_i2c_dev 0 I2C_CR2_DMAEN 0 0 0 0 .I2C_STATE_IDLE

/-- A device with fast mode, 16/9 duty and a CCR field configured. -/
def dev_fast_ccr : i2c_dev :=
  mk_i2c_dev 0 0 0 0 0 (I2C_CCR_FS ||| I2C_CCR_DUTY ||| 0x55) .I2C_STATE_IDLE

/-- CR1 observations for a start-condition run: a STOP is pending at
the first read and the hardware has cleared it by the second. -/
def hw_start_run : Nat → Nat :=
  fun k => if k = 0 then I2C_CR1_STOP else 0

/-- CR1 observations for a stop-condition run: a STOP is pending at
read 0 and cleared at read 1 (first wait exits); the driver then sets
STOP, observed still pending at read 2 and cleared by the hardware at
read 3 (second wait exits). -/
def hw_stop_run : Nat → Nat :=
  fun k => if k = 0 ∨ k = 2 then I2C_CR1_STOP else 0

/-- Write message of length 2 to address 0x42 (message A of the spec's
trace property). -/
def msgA : i2c_msg :=
  { addr := 0x42, flags := 0, length := 2, xferred := 0, data := [0x10, 0x11] }

/-- Read message of length 3 from address 0x43 (message B of the
spec's trace property). -/
def msgB : i2c_msg :=
  { addr := 0x43, flags := I2C_MSG_READ, length := 3, xferred := 0, data := [] }

/-- The busy-wait loop only exits at an observation with no START, STOP
or PEC bit pending. -/
theorem i2c_wait_cond_clear_spec (hw : Nat → Nat) :
    ∀ fuel k j, i2c_wait_cond_clear hw k fuel = some j →
      hw j &&& I2C_CR1_COND_PENDING = 0 := by
  intro fuel
  induction fuel with
  | zero => intro k j h; simp [i2c_wait_cond_clear] at h
  | succ f ih =>
    intro k j h
    rw [i2c_wait_cond_clear] at h
    by_cases hc : hw k &&& I2C_CR1_COND_PENDING = 0
    · simp [hc] at h; subst h; exact hc
    · simp [hc] at h; exact ih (k + 1) j h

/-- testBit view of the 32-bit complement. -/
theorem testBit_compl32 (m i : Nat) :
    (compl32 m).testBit i = (decide (i < 32) ^^ m.testBit i) := by
  rw [show compl32 m = (2 ^ 32 - 1) ^^^ m from rfl, Nat.testBit_xor,
    Nat.testBit_two_pow_sub_one]

/-- Bits at or above position 32 of a 32-bit value are clear. -/
theorem testBit_of_ge_32 {x i : Nat} (hx : x < 2 ^ 32) (hi : 32 ≤ i) :
    x.testBit i = false :=
  Nat.testBit_lt_two_pow
    (lt_of_lt_of_le hx (Nat.pow_le_pow_right (by decide) hi))

/-- ORing bits in and masking them back out leaves exactly the other
bits of the original value. -/
theorem lor_and_compl32 {c m : Nat} (hm : m < 2 ^ 32) :
    (c ||| m) &&& compl32 m = c &&& compl32 m := by
  apply Nat.eq_of_testBit_eq
  intro i
  simp only [Nat.testBit_and, Nat.testBit_or, testBit_compl32]
  by_cases hi : i < 32
  · have h32 : decide (i < 32) = true := by simp [hi]
    rw [h32]
    cases hmi : m.testBit i <;> simp
  · have hm0 : m.testBit i = false := testBit_of_ge_32 hm (le_of_not_lt hi)
    simp [hi, hm0]

/-- Masking out bits that a 32-bit value does not carry leaves it
unchanged. -/
theorem and_compl32_of_disjoint {c m : Nat} (hc : c < 2 ^ 32)
    (h0 : c &&& m = 0) : c &&& compl32 m = c := by
  apply Nat.eq_of_testBit_eq
  intro i
  have hbit : (c.testBit i && m.testBit i) = false := by
    have h := congrArg (fun x => Nat.testBit x i) h0
    simpa [Nat.testBit_and] using h
  simp only [Nat.testBit_and, testBit_compl32]
  by_cases hi : i < 32
  · have h32 : decide (i < 32) = true := by simp [hi]
    rw [h32]
    cases hci : c.testBit i
    · simp
    · rw [hci, Bool.true_and] at hbit
      simp [hbit]
  · have hc0 : c.testBit i = false := testBit_of_ge_32 hc (le_of_not_lt hi)
    simp [hc0]

/-- Setting a bit yields a value in which that bit reads as set. -/
theorem lor_and_self (x s : Nat) : (x ||| s) &&& s = s := by
  apply Nat.eq_of_testBit_eq
  intro i
  simp only [Nat.testBit_and, Nat.testBit_or]
  cases hsi : s.testBit i <;> simp

/-- A value below a power of two has no overlap with that single bit. -/
theorem and_two_pow_of_lt {v k : Nat} (h : v < 2 ^ k) : v &&& 2 ^ k = 0 := by
  apply Nat.eq_of_testBit_eq
  intro i
  simp only [Nat.testBit_and, Nat.testBit_two_pow, Nat.zero_testBit]
  by_cases hik : k = i
  · subst hik
    simp [Nat.testBit_lt_two_pow h]
  · simp [hik]

/-- A 12-bit value has no overlap with the bits outside the low 12. -/
theorem low12_and_compl32_fff {v : Nat} (hv : v ≤ 0xFFF) :
    v &&& compl32 0xFFF = 0 := by
  have hv12 : v < 2 ^ 12 := lt_of_le_of_lt hv (by decide)
  apply Nat.eq_of_testBit_eq
  intro i
  simp only [Nat.testBit_and, testBit_compl32, Nat.zero_testBit]
  have hfff : (0xFFF : Nat).testBit i = decide (i < 12) := by
    have h12 : (0xFFF : Nat) = 2 ^ 12 - 1 := by decide
    rw [h12, Nat.testBit_two_pow_sub_one]
  by_cases hi : i < 12
  · have h32 : i < 32 := lt_of_lt_of_le hi (by decide)
    simp [hfff, hi, h32]
  · have hv0 : v.testBit i = false :=
      Nat.testBit_lt_two_pow
        (lt_of_lt_of_le hv12 (Nat.pow_le_pow_right (by decide) (le_of_not_lt hi)))
    simp [hv0]

/-- C1 (corrected): `i2c_disable` clears the peripheral-enable bit
`I2C_CR1_PE` in CR1 and sets the device state to `I2C_STATE_DISABLED`,
but it performs no draining of in-flight bytes and no wait for idle:
it never reads DR, SR1 or SR2, leaving them exactly as they were. -/
theorem i2c_disable_clears_pe_only (dev : i2c_dev) :
    (i2c_disable dev).regs.CR1 &&& I2C_CR1_PE = 0 ∧
    (i2c_disable dev).state = .I2C_STATE_DISABLED ∧
    (i2c_disable dev).regs.CR1 = dev.regs.CR1 &&& compl32 I2C_CR1_PE ∧
    (i2c_disable dev).regs.DR = dev.regs.DR ∧
    (i2c_disable dev).regs.SR1 = dev.regs.SR1 ∧
    (i2c_disable dev).regs.SR2 = dev.regs.SR2 := by
  refine ⟨?_, rfl, rfl, rfl, rfl, rfl⟩
  show (dev.regs.CR1 &&& compl32 I2C_CR1_PE) &&& I2C_CR1_PE = 0
  rw [Nat.and_assoc]
  have h : compl32 I2C_CR1_PE &&& I2C_CR1_PE = 0 := by decide
  rw [h, Nat.and_zero]

/-- C1 counterexample to the claim as stated: on a device caught
mid-transfer (unread byte in DR, `I2C_SR1_RXNE` and `I2C_SR2_BUSY`
set), `i2c_disable` turns the peripheral off immediately — PE is
cleared and the state is Disabled while the byte is still undrained
and the bus is still busy, so no draining or waiting happened. -/
theorem i2c_disable_no_drain_no_wait :
    (i2c_disable dev_busy_rx).regs.CR1 &&& I2C_CR1_PE = 0 ∧
    (i2c_disable dev_busy_rx).state = .I2C_STATE_DISABLED ∧
    (i2c_disable dev_busy_rx).regs.SR1 &&& I2C_SR1_RXNE ≠ 0 ∧
    (i2c_disable dev_busy_rx).regs.SR2 &&& I2C_SR2_BUSY ≠ 0 ∧
    (i2c_disable dev_busy_rx).regs.DR = dev_busy_rx.regs.DR := by
  decide

/-- C2 counterexample to the claim as stated: on a device with
`I2C_CR2_LAST` and the three interrupt-enable bits set, calling
`i2c_set_input_clk` with `freq = 8` leaves CR2 equal to 8 — the bit
outside the FREQ mask (`I2C_CR2_LAST`) and the interrupt-enable bits
are all wiped, so the call does not modify only the FREQ field.
Moreover, in this header the three interrupt-enable bits lie inside
the 0xFFF FREQ mask, so they are not "other CR2 bits" at all, and
even the function's own discarded local value
`(CR2 & ~I2C_CR2_FREQ) | freq` (the last conjunct) clears them. -/
theorem i2c_set_input_clk_clobbers_cr2 :
    (i2c_set_input_clk dev_irqs_on 8).regs.CR2 = 8 ∧
    dev_irqs_on.regs.CR2 &&& I2C_CR2_LAST ≠ 0 ∧
    dev_irqs_on.regs.CR2 &&& I2C_CR2_ITEVTEN ≠ 0 ∧
    (i2c_set_input_clk dev_irqs_on 8).regs.CR2 &&& I2C_CR2_LAST = 0 ∧
    (i2c_set_input_clk dev_irqs_on 8).regs.CR2 &&& I2C_CR2_ITEVTEN = 0 ∧
    I2C_CR2_ITERREN &&& I2C_CR2_FREQ ≠ 0 ∧
    I2C_CR2_ITEVTEN &&& I2C_CR2_FREQ ≠ 0 ∧
    I2C_CR2_ITBUFEN &&& I2C_CR2_FREQ ≠ 0 ∧
    I2C_CR2_LAST &&& I2C_CR2_FREQ = 0 ∧
    (dev_irqs_on.regs.CR2 &&& compl32 I2C_CR2_FREQ) ||| 8 ≠
      dev_irqs_on.regs.CR2 := by
  decide

/-- C2 (corrected): `i2c_set_input_clk` stores `freq` into CR2
verbatim (the masked update it computes into its local is discarded),
so after the call CR2 equals `freq` and no previous CR2 content
survives; every other register and the device state are unchanged. -/
theorem i2c_set_input_clk_stores_freq (dev : i2c_dev) (freq : Nat) :
    (i2c_set_input_clk dev freq).regs.CR2 = freq ∧
    (i2c_set_input_clk dev freq).regs.CR1 = dev.regs.CR1 ∧
    (i2c_set_input_clk dev freq).regs.CCR = dev.regs.CCR ∧
    (i2c_set_input_clk dev freq).regs.TRISE = dev.regs.TRISE ∧
    (i2c_set_input_clk dev freq).regs.DR = dev.regs.DR ∧
    (i2c_set_input_clk dev freq).regs.SR1 = dev.regs.SR1 ∧
    (i2c_set_input_clk dev freq).regs.SR2 = dev.regs.SR2 ∧
    (i2c_set_input_clk dev freq).state = dev.state :=
  ⟨rfl, rfl, rfl, rfl, rfl, rfl, rfl, rfl⟩

/-- C3: when `i2c_stop_condition` returns (both busy-waits saw the
hardware clear the pending bits within their fuel), the CR1 value
observed by its final read has no START, STOP or PEC bit pending, so
the STOP condition has completed before the function returns. -/
theorem i2c_stop_condition_completes (hw : Nat → Nat) (fuel v : Nat)
    (h : i2c_stop_condition hw fuel = some v) :
    v &&& I2C_CR1_COND_PENDING = 0 := by
  cases hk : i2c_wait_cond_clear hw 0 fuel with
  | none => simp [i2c_stop_condition, hk] at h
  | some k =>
    cases hj : i2c_wait_cond_clear hw (k + 1) fuel with
    | none => simp [i2c_stop_condition, hk, hj] at h
    | some j =>
      have hv : hw j = v := by
        simpa [i2c_stop_condition, hk, hj] using h
      rw [← hv]
      exact i2c_wait_cond_clear_spec hw fuel (k + 1) j hj

/-- C3 witness: a run in which a STOP is pending at the first read,
clears, is re-asserted by the driver's own STOP store, and clears
again; the returned CR1 has no condition bit pending. -/
theorem i2c_stop_condition_completes_witness :
    i2c_stop_condition hw_stop_run 3 = some 0 ∧
    (0 : Nat) &&& I2C_CR1_COND_PENDING = 0 :=
  ⟨by decide, i2c_stop_condition_completes hw_stop_run 3 0 (by decide)⟩

/-- C4: `i2c_start_condition` busy-waits until CR1 carries no START,
STOP or PEC bit; the exit observation `k` (the moment of the store) has
those bits clear, so START is never written while one is pending; the
value the store leaves in CR1 is the observed value with `I2C_CR1_START`
ORed in, and the START bit is set in it on return. -/
theorem i2c_start_condition_waits_then_sets (hw : Nat → Nat) (fuel k : Nat)
    (hk : i2c_wait_cond_clear hw 0 fuel = some k) :
    hw k &&& I2C_CR1_COND_PENDING = 0 ∧
    i2c_start_condition hw fuel = some (hw k ||| I2C_CR1_START) ∧
    (hw k ||| I2C_CR1_START) &&& I2C_CR1_START = I2C_CR1_START := by
  refine ⟨i2c_wait_cond_clear_spec hw fuel 0 k hk, ?_, lor_and_self _ _⟩
  unfold i2c_start_condition
  rw [hk]

/-- C4 witness: a run with a STOP pending at the first read and clear
at the second; the wait exits at observation 1 and the function sets
START there. -/
theorem i2c_start_condition_waits_then_sets_witness :
    i2c_wait_cond_clear hw_start_run 0 3 = some 1 ∧
    (hw_start_run 1 &&& I2C_CR1_COND_PENDING = 0 ∧
     i2c_start_condition hw_start_run 3 =
       some (hw_start_run 1 ||| I2C_CR1_START) ∧
     (hw_start_run 1 ||| I2C_CR1_START) &&& I2C_CR1_START =
       I2C_CR1_START) :=
  ⟨by decide, i2c_start_condition_waits_then_sets hw_start_run 3 1 (by decide)⟩

/-- C5 counterexample to the claim as stated: `i2c_disable` (defined in
i2c.h) on an idle device performs the transition Idle→Disabled, which
is not in the specification's transition list. -/
theorem i2c_disable_breaks_transition_list :
    dev_idle.state = .I2C_STATE_IDLE ∧
    (i2c_disable dev_idle).state = .I2C_STATE_DISABLED ∧
    allowed_transition dev_idle.state (i2c_disable dev_idle).state = false := by
  decide

/-- C5 (corrected): starting from any state reachable when a public
operation can be called (every state except Busy, which marks an
in-flight transaction), every state change any public operation
performs is either in the specification's transition list or a
transition to Disabled performed by `i2c_disable`. -/
theorem i2c_ops_respect_amended_transitions (op : i2c_op) (s : i2c_state)
    (hs : s ≠ .I2C_STATE_BUSY) : trajectory_ok op s = true := by
  cases op with
  | op_init => cases s <;> first | decide | exact absurd rfl hs
  | op_master_enable => cases s <;> first | decide | exact absurd rfl hs
  | op_master_xfer ok => cases ok <;> cases s <;> decide
  | op_bus_reset => cases s <;> first | decide | exact absurd rfl hs
  | op_disable => cases s <;> decide

/-- C5 witness: a successful transaction from Idle only performs listed
transitions. -/
theorem i2c_ops_respect_amended_transitions_witness :
    (i2c_state.I2C_STATE_IDLE ≠ i2c_state.I2C_STATE_BUSY) ∧
    trajectory_ok (.op_master_xfer true) .I2C_STATE_IDLE = true :=
  ⟨by decide,
   i2c_ops_respect_amended_transitions (.op_master_xfer true)
     .I2C_STATE_IDLE (by decide)⟩

/-- C6: the protocol-error and timeout-error status codes are -1 and
-2, both negative, distinct from each other and from the success
status 0, and the status function is total — each outcome of
`i2c_master_xfer` maps to its own return value, so the caller can
tell the three apart from the return value alone. -/
theorem i2c_error_codes_distinguishable :
    I2C_ERROR_PROTOCOL = -1 ∧ I2C_ERROR_TIMEOUT = -2 ∧
    I2C_ERROR_PROTOCOL < 0 ∧ I2C_ERROR_TIMEOUT < 0 ∧
    i2c_xfer_status .success = 0 ∧
    i2c_xfer_status .protocol_fault = I2C_ERROR_PROTOCOL ∧
    i2c_xfer_status .timeout_expiry = I2C_ERROR_TIMEOUT ∧
    [i2c_xfer_status .success, i2c_xfer_status .protocol_fault,
      i2c_xfer_status .timeout_expiry].Nodup := by
  decide

/-- C7: on a fault-free bus the two-message queue
`[A(write,len=2), B(read,len=3)]` produces exactly the trace START,
address(A,write), 2 data bytes, repeated START, address(B,read),
3 data bytes, STOP — one STOP for the whole transaction, one repeated
START between the messages, no STOP between chained messages. -/
theorem i2c_master_xfer_trace_two_messages :
    i2c_xfer_trace [msgA, msgB] =
      [bus_event.ev_start, bus_event.ev_addr 0x42 false,
       bus_event.ev_data, bus_event.ev_data,
       bus_event.ev_rep_start, bus_event.ev_addr 0x43 true,
       bus_event.ev_data, bus_event.ev_data, bus_event.ev_data,
       bus_event.ev_stop] ∧
    (i2c_xfer_trace [msgA, msgB]).count bus_event.ev_stop = 1 ∧
    (i2c_xfer_trace [msgA, msgB]).count bus_event.ev_rep_start = 1 ∧
    (i2c_xfer_trace [msgA, msgB]).count bus_event.ev_start = 1 := by
  decide

/-- C8: enabling interrupt classes `m` and then disabling the same
classes leaves CR2 at its original value with the bits of `m` cleared;
if no bit of `m` was set initially the pair restores CR2 exactly; and
neither call touches any CR2 bit outside `m`. -/
theorem i2c_irq_enable_disable_roundtrip (dev : i2c_dev) (m : Nat)
    (hc : dev.regs.CR2 < 2 ^ 32) (hm : m < 2 ^ 32) :
    (i2c_disable_irq (i2c_enable_irq dev m) m).regs.CR2 =
      dev.regs.CR2 &&& compl32 m ∧
    (dev.regs.CR2 &&& m = 0 →
      (i2c_disable_irq (i2c_enable_irq dev m) m).regs.CR2 = dev.regs.CR2) ∧
    (i2c_enable_irq dev m).regs.CR2 &&& compl32 m =
      dev.regs.CR2 &&& compl32 m ∧
    (i2c_disable_irq (i2c_enable_irq dev m) m).regs.CR2 &&& compl32 m =
      dev.regs.CR2 &&& compl32 m := by
  have h1 : (i2c_disable_irq (i2c_enable_irq dev m) m).regs.CR2 =
      dev.regs.CR2 &&& compl32 m := lor_and_compl32 hm
  refine ⟨h1, ?_, lor_and_compl32 hm, ?_⟩
  · intro h0
    rw [h1]
    exact and_compl32_of_disjoint hc h0
  · rw [h1, Nat.and_assoc, Nat.and_self]

/-- C8 witness: enabling then disabling all three interrupt classes on
a device whose CR2 carries only the DMA-enable bit restores CR2. -/
theorem i2c_irq_enable_disable_roundtrip_witness :
    dev_dma_on.regs.CR2 < 2 ^ 32 ∧
    (I2C_IRQ_ERROR ||| I2C_IRQ_EVENT ||| I2C_IRQ_BUFFER) < 2 ^ 32 ∧
    ((i2c_disable_irq
        (i2c_enable_irq dev_dma_on
          (I2C_IRQ_ERROR ||| I2C_IRQ_EVENT ||| I2C_IRQ_BUFFER))
        (I2C_IRQ_ERROR ||| I2C_IRQ_EVENT ||| I2C_IRQ_BUFFER)).regs.CR2 =
      dev_dma_on.regs.CR2 &&&
        compl32 (I2C_IRQ_ERROR ||| I2C_IRQ_EVENT ||| I2C_IRQ_BUFFER) ∧
    (dev_dma_on.regs.CR2 &&&
        (I2C_IRQ_ERROR ||| I2C_IRQ_EVENT ||| I2C_IRQ_BUFFER) = 0 →
      (i2c_disable_irq
        (i2c_enable_irq dev_dma_on
          (I2C_IRQ_ERROR ||| I2C_IRQ_EVENT ||| I2C_IRQ_BUFFER))
        (I2C_IRQ_ERROR ||| I2C_IRQ_EVENT ||| I2C_IRQ_BUFFER)).regs.CR2 =
        dev_dma_on.regs.CR2) ∧
    (i2c_enable_irq dev_dma_on
        (I2C_IRQ_ERROR ||| I2C_IRQ_EVENT ||| I2C_IRQ_BUFFER)).regs.CR2 &&&
        compl32 (I2C_IRQ_ERROR ||| I2C_IRQ_EVENT ||| I2C_IRQ_BUFFER) =
      dev_dma_on.regs.CR2 &&&
        compl32 (I2C_IRQ_ERROR ||| I2C_IRQ_EVENT ||| I2C_IRQ_BUFFER) ∧
    (i2c_disable_irq
        (i2c_enable_irq dev_dma_on
          (I2C_IRQ_ERROR ||| I2C_IRQ_EVENT ||| I2C_IRQ_BUFFER))
        (I2C_IRQ_ERROR ||| I2C_IRQ_EVENT ||| I2C_IRQ_BUFFER)).regs.CR2 &&&
        compl32 (I2C_IRQ_ERROR ||| I2C_IRQ_EVENT ||| I2C_IRQ_BUFFER) =
      dev_dma_on.regs.CR2 &&&
        compl32 (I2C_IRQ_ERROR ||| I2C_IRQ_EVENT ||| I2C_IRQ_BUFFER)) :=
  ⟨by decide, by decide,
   i2c_irq_enable_disable_roundtrip dev_dma_on
     (I2C_IRQ_ERROR ||| I2C_IRQ_EVENT ||| I2C_IRQ_BUFFER)
     (by decide) (by decide)⟩

/-- C9: for any value fitting the 12-bit CCR field,
`i2c_set_clk_control` preserves the fast-mode bit, the duty-ratio bit
and every other bit above the low 12, and sets the low 12 bits to the
value. -/
theorem i2c_set_clk_control_preserves_mode (dev : i2c_dev) (val : Nat)
    (hv : val ≤ 0xFFF) :
    (i2c_set_clk_control dev val).regs.CCR &&& I2C_CCR_FS =
      dev.regs.CCR &&& I2C_CCR_FS ∧
    (i2c_set_clk_control dev val).regs.CCR &&& I2C_CCR_DUTY =
      dev.regs.CCR &&& I2C_CCR_DUTY ∧
    (i2c_set_clk_control dev val).regs.CCR &&& compl32 I2C_CCR_CCR =
      dev.regs.CCR &&& compl32 I2C_CCR_CCR ∧
    (i2c_set_clk_control dev val).regs.CCR &&& I2C_CCR_CCR = val := by
  refine ⟨?_, ?_, ?_, ?_⟩
  · show ((dev.regs.CCR &&& compl32 I2C_CCR_CCR) ||| val) &&& I2C_CCR_FS =
      dev.regs.CCR &&& I2C_CCR_FS
    rw [Nat.and_distrib_right, Nat.and_assoc]
    have hcm : compl32 I2C_CCR_CCR &&& I2C_CCR_FS = I2C_CCR_FS := by decide
    have hv15 : val &&& I2C_CCR_FS = 0 := by
      have hfs : (I2C_CCR_FS : Nat) = 2 ^ 15 := by decide
      rw [hfs]
      exact and_two_pow_of_lt (lt_of_le_of_lt hv (by decide))
    rw [hcm, hv15, Nat.or_zero]
  · show ((dev.regs.CCR &&& compl32 I2C_CCR_CCR) ||| val) &&& I2C_CCR_DUTY =
      dev.regs.CCR &&& I2C_CCR_DUTY
    rw [Nat.and_distrib_right, Nat.and_assoc]
    have hcm : compl32 I2C_CCR_CCR &&& I2C_CCR_DUTY = I2C_CCR_DUTY := by decide
    have hv14 : val &&& I2C_CCR_DUTY = 0 := by
      have hduty : (I2C_CCR_DUTY : Nat) = 2 ^ 14 := by decide
      rw [hduty]
      exact and_two_pow_of_lt (lt_of_le_of_lt hv (by decide))
    rw [hcm, hv14, Nat.or_zero]
  · show ((dev.regs.CCR &&& compl32 I2C_CCR_CCR) ||| val) &&&
        compl32 I2C_CCR_CCR =
      dev.regs.CCR &&& compl32 I2C_CCR_CCR
    rw [Nat.and_distrib_right, Nat.and_assoc, Nat.and_self]
    have hz : val &&& compl32 I2C_CCR_CCR = 0 := low12_and_compl32_fff hv
    rw [hz, Nat.or_zero]
  · show ((dev.regs.CCR &&& compl32 I2C_CCR_CCR) ||| val) &&& I2C_CCR_CCR =
      val
    rw [Nat.and_distrib_right, Nat.and_assoc]
    have hcm0 : compl32 I2C_CCR_CCR &&& I2C_CCR_CCR = 0 := by decide
    have hvv : val &&& I2C_CCR_CCR = val := by
      have h12 : (I2C_CCR_CCR : Nat) = 2 ^ 12 - 1 := by decide
      rw [h12, Nat.and_pow_two_sub_one_eq_mod]
      exact Nat.mod_eq_of_lt (lt_of_le_of_lt hv (by decide))
    rw [hcm0, Nat.and_zero, hvv, Nat.zero_or]

/-- C9 witness: on a device with fast mode, 16/9 duty and a stale CCR
field, writing 0x123 keeps FS and DUTY and sets the field to 0x123. -/
theorem i2c_set_clk_control_preserves_mode_witness :
    (0x123 : Nat) ≤ 0xFFF ∧
    ((i2c_set_clk_control dev_fast_ccr 0x123).regs.CCR &&& I2C_CCR_FS =
      dev_fast_ccr.regs.CCR &&& I2C_CCR_FS ∧
    (i2c_set_clk_control dev_fast_ccr 0x123).regs.CCR &&& I2C_CCR_DUTY =
      dev_fast_ccr.regs.CCR &&& I2C_CCR_DUTY ∧
    (i2c_set_clk_control dev_fast_ccr 0x123).regs.CCR &&&
        compl32 I2C_CCR_CCR =
      dev_fast_ccr.regs.CCR &&& compl32 I2C_CCR_CCR ∧
    (i2c_set_clk_control dev_fast_ccr 0x123).regs.CCR &&& I2C_CCR_CCR =
      0x123) :=
  ⟨by decide, i2c_set_clk_control_preserves_mode dev_fast_ccr 0x123 (by decide)⟩

/-- C10: for every frequency below `MAX_SPI_FREQS` (the guard
`enable_device` checks before calling), `determine_baud_rate` never
indexes the 8-entry `baud_rates` table out of bounds: every `List.get?`
access it performs succeeds (an out-of-bounds index would surface as
`none`), on APB2 devices because the `SPI_140_625KHZ` case returns
early on the assertion branch so the index `freq + 1` stays below 8. -/
theorem determine_baud_rate_in_bounds (isAPB2 : Bool) (freq : Nat)
    (h : freq < MAX_SPI_FREQS) :
    (determine_baud_rate isAPB2 freq).isSome = true := by
  have h8 : freq < 8 := h
  interval_cases freq <;> cases isAPB2 <;> decide

/-- C10 witness: the largest APB2 index case, `freq = 6`, stays in
bounds. -/
theorem determine_baud_rate_in_bounds_witness :
    6 < MAX_SPI_FREQS ∧ (determine_baud_rate true 6).isSome = true :=
  ⟨by decide, determine_baud_rate_in_bounds true 6 (by decide)⟩
